import Mathlib

/-!
Verification of the customer-feedback analyzer's aggregation engine
(`computeAdjustedAggregates` in `frontend/src/components/Dashboard.jsx`)
and the two insight rule engines (`InsightGenerator.jsx` and the
aggregate-driven `generateInsights` utility).

JavaScript floating-point numbers are modelled as real numbers (exact
arithmetic); comparisons and counts performed on integers/strings are
modelled with decidable, executable Lean functions.  A JS value that may
be absent or not a number (`typeof x === "number"` guards, `undefined`)
is modelled as `Option`.
-/

/-! ## String utilities

`sanitizeText` in Dashboard.jsx:
`s.toLowerCase().replace(/[^\w\s]/g, " ").replace(/\s+/g, " ").trim()`.
JS `\w` is `[A-Za-z0-9_]`, `\s` is whitespace.  Replacing every run of
whitespace by a single space and trimming is the same as splitting on
whitespace, dropping empty pieces and re-joining with single spaces.
-/

def isWordChar (c : Char) : Bool :=
  ('a' ≤ c ∧ c ≤ 'z') ∨ ('A' ≤ c ∧ c ≤ 'Z') ∨ ('0' ≤ c ∧ c ≤ '9') ∨ c = '_'

def isSpaceChar (c : Char) : Bool :=
  c = ' ' ∨ c = '\t' ∨ c = '\n' ∨ c = '\r'

def lowerStr (s : String) : String :=
  String.mk (s.data.map Char.toLower)

/-- Split a character list into its maximal whitespace-free words
(the accumulator carries the current word, reversed). -/
def splitWordsAux : List Char → List Char → List (List Char)
  | [], acc => if acc = [] then [] else [acc.reverse]
  | c :: rest, acc =>
    if isSpaceChar c then
      if acc = [] then splitWordsAux rest []
      else acc.reverse :: splitWordsAux rest []
    else splitWordsAux rest (c :: acc)

/-- Re-join words with single spaces. -/
def joinWords : List (List Char) → List Char
  | [] => []
  | [w] => w
  | w :: ws => w ++ ' ' :: joinWords ws

def sanitizeText (s : String) : String :=
  let replaced := (lowerStr s).data.map
    (fun c => if isWordChar c ∨ isSpaceChar c then c else ' ')
  String.mk (joinWords (splitWordsAux replaced []))

/-- JS `String.prototype.trim`: strip leading and trailing whitespace. -/
def trimStr (s : String) : String :=
  String.mk (((s.data.dropWhile (fun c => isSpaceChar c)).reverse.dropWhile
    (fun c => isSpaceChar c)).reverse)

/-- Dashboard.jsx `fingerprint`: `sanitizeText(s).replace(/\s+/g, " ")`.
After `sanitizeText` the text contains only single interior spaces, so the
extra replacement is the identity. -/
def fingerprint (s : String) : String := sanitizeText s

/-- JS `haystack.startsWith`-style check on character lists. -/
def startsWithList : List Char → List Char → Bool
  | [], _ => true
  | _ :: _, [] => false
  | p :: ps, c :: cs => p = c && startsWithList ps cs

/-- Substring occurrence test on character lists (JS `String.includes`). -/
def hasSub (needle : List Char) : List Char → Bool
  | [] => startsWithList needle []
  | c :: rest => startsWithList needle (c :: rest) || hasSub needle rest

/-- JS `s.includes(pat)`. -/
def strIncludes (s pat : String) : Bool := hasSub pat.data s.data

/-! ## Data model

`FeedbackRecord` as consumed by the dashboard and the insight engines.
`rating` is `Option ℚ` (`none` models a non-number rating, cf. the
`typeof r.rating === "number"` guard); `sentiment.confidence` likewise.
`created_at` is the already-parsed timestamp in ms (`none` models a
missing or unparseable ISO string, for which `Date.parse` yields `NaN`).
-/

structure SentimentResult where
  label : String
  confidence : Option ℚ

structure FeedbackRecord where
  product_id : String
  rating : Option ℚ
  review_text : String
  created_at : Option ℝ
  sentiment : SentimentResult
  themes : Option (List String)

instance : Inhabited SentimentResult := ⟨⟨"", none⟩⟩

instance : Inhabited FeedbackRecord := ⟨⟨"", none, "", none, default, none⟩⟩

/-- Aggregated sentiment payload consumed by the insight engines
(`sentimentData`): any field may be absent, every read in the source
goes through `|| 0` or a plain comparison. -/
structure SentimentAgg where
  total : Option ℚ
  positive : Option ℚ
  negative : Option ℚ
  neutral : Option ℚ
  average_score : Option ℚ
  average_confidence : Option ℚ
deriving DecidableEq

/-- Aggregated theme payload (`themeData`): theme name to count, in
object key order. -/
def ThemeMapJS := List (String × ℚ)

/-! Comparison helpers mirroring JS semantics where a missing value
(`undefined`, i.e. `none`) makes every `<`, `>`, `≤`, `≥` comparison
false (NaN-style). -/

def optGTb (a b : Option ℚ) : Bool :=
  match a, b with
  | some x, some y => decide (y < x)
  | _, _ => false

def ratingGEb (r : FeedbackRecord) (q : ℚ) : Bool :=
  match r.rating with
  | some x => decide (q ≤ x)
  | none => false

def ratingLEb (r : FeedbackRecord) (q : ℚ) : Bool :=
  match r.rating with
  | some x => decide (x ≤ q)
  | none => false

def confGTb (r : FeedbackRecord) (q : ℚ) : Bool :=
  match r.sentiment.confidence with
  | some c => decide (q < c)
  | none => false

def confGEb (r : FeedbackRecord) (q : ℚ) : Bool :=
  match r.sentiment.confidence with
  | some c => decide (q ≤ c)
  | none => false

/-- Sum of the raw `rating` fields (JS `reduce((sum, f) => sum + f.rating, 0)`):
a single non-number rating poisons the sum to NaN, modelled as `none`. -/
def ratingSum : List FeedbackRecord → Option ℚ
  | [] => some 0
  | r :: rest =>
    match r.rating, ratingSum rest with
    | some q, some s => some (q + s)
    | _, _ => none

def avgRatingOpt (feedback : List FeedbackRecord) : Option ℚ :=
  (ratingSum feedback).map (fun s => s / (feedback.length : ℚ))

/-! ## InsightGenerator.jsx — per-record insight rules

`Insight` as produced by InsightGenerator.jsx.  The `detail` strings are
interpolated from the data at render time and carry no decision logic;
they are omitted from the model.  All other fields are the literal
constants of the source. -/

structure Insight where
  category : String
  type : String
  message : String
  action : String
  priority : String
  confidence : ℚ
  impact : String
  effort : String
deriving DecidableEq

/-- `analyzeOverallHealth(sData)`: one high-priority insight when
`negative > positive` (both comparisons on possibly-absent fields). -/
def analyzeOverallHealth (sData : Option SentimentAgg) : List Insight :=
  match sData with
  | none => []
  | some s =>
    if optGTb s.negative s.positive then
      [⟨"Overall Health", "warning", "Negative Feedback Outweighs Positive",
        "Investigate recent product batches or service issues.",
        "high", 0.85, "high", "medium"⟩]
    else []

/-- `getThemeStats(themeName)` inside `analyzeThemes`: `none` when no
record carries the theme, otherwise (total, negative, percentage).
The membership test is JS `f.themes && f.themes.includes(themeName)`
and the negative count filters on `f.sentiment.label === 'Negative'`
with no confidence condition. -/
def getThemeStats (feedback : List FeedbackRecord) (themeName : String) :
    Option (ℕ × ℕ × ℚ) :=
  let themeReviews := feedback.filter (fun f => (f.themes.getD []).contains themeName)
  if themeReviews.length = 0 then none
  else
    let negative := (themeReviews.filter (fun f => f.sentiment.label == "Negative")).length
    some (themeReviews.length, negative,
      ((negative : ℚ) / (themeReviews.length : ℚ)) * 100)

def durabilityInsightJSX : Insight :=
  ⟨"Product Quality", "durability", "High Durability Concerns",
    "Review manufacturing quality control and material strength.",
    "high", 0.85, "high", "high"⟩

def comfortInsightJSX : Insight :=
  ⟨"Product Design", "comfort", "Comfort Issues Detected",
    "Evaluate product weight and fit.",
    "medium", 0.8, "medium", "medium"⟩

def appearanceInsightJSX : Insight :=
  ⟨"Aesthetics", "appearance", "Appearance/Finish Dissatisfaction",
    "Check finishing process and product photography accuracy.",
    "high", 0.9, "high", "medium"⟩

/-- `analyzeThemes(tData, feedback)`: guard `!tData || !feedback ||
feedback.length === 0`, then the Durability (>40%), Comfort (>30%) and
Appearance (>60%) threshold rules, in that order. -/
def analyzeThemes (tData : Option ThemeMapJS) (feedback : List FeedbackRecord) :
    List Insight :=
  match tData with
  | none => []
  | some _ =>
    if feedback.length = 0 then []
    else
      (match getThemeStats feedback "Durability" with
        | some s => if 40 < s.2.2 then [durabilityInsightJSX] else []
        | none => []) ++
      (match getThemeStats feedback "Comfort" with
        | some s => if 30 < s.2.2 then [comfortInsightJSX] else []
        | none => []) ++
      (match getThemeStats feedback "Appearance" with
        | some s => if 60 < s.2.2 then [appearanceInsightJSX] else []
        | none => [])

def ratingCriticalInsight : Insight :=
  ⟨"Rating Health", "rating", "Critical Rating Drop",
    "Emergency audit of product line required.",
    "critical", 1.0, "high", "high"⟩

def ratingHighInsight : Insight :=
  ⟨"Rating Health", "rating", "Below Average Ratings",
    "Analyze 1-2 star reviews for recurring patterns.",
    "high", 1.0, "high", "medium"⟩

/-- `analyzeRatings(feedback)`: average of the raw `rating` fields
(`none` models the NaN produced by a non-number rating, for which both
band tests are false); `< 2.5` critical, else `< 3.5` high. -/
def analyzeRatings (feedback : List FeedbackRecord) : List Insight :=
  if feedback.length = 0 then []
  else
    match avgRatingOpt feedback with
    | none => []
    | some avgRating =>
      if avgRating < 2.5 then [ratingCriticalInsight]
      else if avgRating < 3.5 then [ratingHighInsight]
      else []

def contradictionPosNegInsight : Insight :=
  ⟨"Data Anomaly", "contradiction",
    "Rating/Sentiment Contradiction (Positive Rating, Negative Text)",
    "Read these reviews manually - customers might be sarcastic or mixed.",
    "medium", 0.7, "low", "low"⟩

def contradictionNegPosInsight : Insight :=
  ⟨"Data Anomaly", "contradiction",
    "Rating/Sentiment Contradiction (Negative Rating, Positive Text)",
    "Check for delivery/service issues unrelated to product quality.",
    "medium", 0.7, "low", "low"⟩

/-- `detectContradictions(feedback)`. -/
def detectContradictions (feedback : List FeedbackRecord) : List Insight :=
  let happyButSad := feedback.filter (fun f =>
    ratingGEb f 4 && f.sentiment.label == "Negative" && confGTb f 0.5)
  let sadButHappy := feedback.filter (fun f =>
    ratingLEb f 2 && f.sentiment.label == "Positive" && confGTb f 0.5)
  (if 0 < happyButSad.length then [contradictionPosNegInsight] else []) ++
  (if 0 < sadButHappy.length then [contradictionNegPosInsight] else [])

/-- Per-product accumulator of `analyzeByProduct`.  `totalRating` is
`none` once a non-number rating poisoned the sum (NaN). -/
structure ProdStats where
  count : ℕ
  totalRating : Option ℚ
  negativeCount : ℕ
deriving DecidableEq

def addOptQ (a b : Option ℚ) : Option ℚ :=
  match a, b with
  | some x, some y => some (x + y)
  | _, _ => none

def upsertProd : List (String × ProdStats) → String → FeedbackRecord →
    List (String × ProdStats)
  | [], pid, f =>
    [(pid, ⟨1, addOptQ (some 0) f.rating,
      if f.sentiment.label == "Negative" then 1 else 0⟩)]
  | (k, s) :: rest, pid, f =>
    if k = pid then
      (k, ⟨s.count + 1, addOptQ s.totalRating f.rating,
        s.negativeCount + (if f.sentiment.label == "Negative" then 1 else 0)⟩) :: rest
    else (k, s) :: upsertProd rest pid f

def underperformInsight : Insight :=
  ⟨"Product Performance", "product", "Underperforming Product",
    "Consider halting sales or redesigning.",
    "critical", 0.9, "high", "high"⟩

def starInsight : Insight :=
  ⟨"Product Performance", "star", "Star Product",
    "Promote this product in marketing campaigns.",
    "low", 0.9, "high", "low"⟩

/-- `analyzeByProduct(feedback)`: group by `product_id` (insertion
order), skip groups with fewer than 2 records, emit the underperforming
(`avg < 3.0` and `negPercent > 50`) and star (`avg >= 4.5`, `count >= 3`)
insights.  The product id interpolated into message/detail is dropped
with the other interpolated strings. -/
def analyzeByProduct (feedback : List FeedbackRecord) : List Insight :=
  let productStats := feedback.foldl (fun m f => upsertProd m f.product_id f) []
  (productStats.map (fun p =>
    let stats := p.2
    if stats.count < 2 then []
    else
      let avgRating := stats.totalRating.map (fun t => t / (stats.count : ℚ))
      let negPercent := ((stats.negativeCount : ℚ) / (stats.count : ℚ)) * 100
      (match avgRating with
        | some a =>
          (if a < 3.0 ∧ 50 < negPercent then [underperformInsight] else []) ++
          (if 4.5 ≤ a ∧ 3 ≤ stats.count then [starInsight] else [])
        | none => []))).flatten

/-- The fixed quick-win pattern table: phrase, action, effort, impact. -/
def quickWinPatterns : List (String × String × String × String) :=
  [("too heavy", "Use lighter materials or hollow design", "medium", "high"),
   ("packaging", "Improve packaging quality/presentation", "low", "medium"),
   ("instructions", "Provide clearer care guide/manual", "low", "medium"),
   ("arrived damaged", "Enhance shipping protection/padding", "low", "high"),
   ("tarnish", "Add anti-tarnish coating or care kit", "low", "high"),
   ("clasp", "Inspect clasp mechanism quality", "medium", "high")]

/-- `identifyQuickWins(feedback)`: a pattern fires when it occurs as a
substring of at least 2 records' lowercased text. -/
def identifyQuickWins (feedback : List FeedbackRecord) : List Insight :=
  (quickWinPatterns.map (fun pat =>
    let matched := feedback.filter (fun f =>
      strIncludes (lowerStr f.review_text) pat.1)
    if 2 ≤ matched.length then
      [⟨"Quick Win", "quick-win", "Recurring Issue", pat.2.1,
        "medium", 0.85, pat.2.2.2, pat.2.2.1⟩]
    else [])).flatten

def priorityScore (p : String) : ℚ :=
  match p with
  | "critical" => 3
  | "high" => 2
  | "medium" => 1
  | _ => 0

/-- Stable descending insertion by priority score (JS `Array.sort` with
comparator `priorityScore[b] - priorityScore[a]` is a stable sort). -/
def insertByPriority (x : Insight) : List Insight → List Insight
  | [] => [x]
  | y :: ys =>
    if priorityScore y.priority < priorityScore x.priority then x :: y :: ys
    else y :: insertByPriority x ys

def sortInsights (l : List Insight) : List Insight :=
  l.foldl (fun acc x => insertByPriority x acc) []

/-- The decision core of `handleGenerateInsights`, after the defensive
refresh: with any of the three inputs still missing it throws
(modelled as `Except.error`, the thrown message is caught and shown as
an error: no insights are produced); otherwise it concatenates the six
analysis modules and sorts by priority. -/
def handleGenerateInsights (sData : Option SentimentAgg) (tData : Option ThemeMapJS)
    (fData : Option (List FeedbackRecord)) : Except String (List Insight) :=
  match sData, tData, fData with
  | some s, some t, some f =>
    Except.ok (sortInsights
      (analyzeOverallHealth (some s) ++ analyzeThemes (some t) f ++
       analyzeRatings f ++ detectContradictions f ++
       analyzeByProduct f ++ identifyQuickWins f))
  | _, _, _ => Except.error "Insufficient data to generate insights."

/-! ## src/unnamed/part_001 — aggregate-driven `generateInsights`

Insights of this engine carry `type`, an interpolated `message`
(omitted, no decision logic), `confidence` and `priority`. -/

structure Insight001 where
  type : String
  confidence : ℚ
  priority : String
deriving DecidableEq

/-- Sum over the `themeData` keys whose lowercased name contains `sub`
of the corresponding counts (`themeData[theme] || 0`). -/
def themeSum (td : ThemeMapJS) (sub : String) : ℚ :=
  (td.filter (fun p => strIncludes (lowerStr p.1) sub)).foldl
    (fun s p => s + p.2) 0

/-- `f.themes.some(t => t.toLowerCase().includes(sub))`.  Analyzed
records always carry a themes array (data-model invariant); a `none`
themes field is treated as matching nothing. -/
def hasThemeSub (f : FeedbackRecord) (sub : String) : Bool :=
  (f.themes.getD []).any (fun t => strIncludes (lowerStr t) sub)

/-- Rule 5's negative-durability filter: durability-tagged, label
Negative, confidence at least 0.6. -/
def negDurability001 (allFeedback : List FeedbackRecord) : List FeedbackRecord :=
  allFeedback.filter (fun f =>
    hasThemeSub f "durability" && f.sentiment.label == "Negative" && confGEb f 0.6)

/-- Rule 6's comfort-issue filter: comfort-tagged and (label Negative or
text mentions "heavy" or "uncomfortable"). -/
def comfortIssues001 (allFeedback : List FeedbackRecord) : List FeedbackRecord :=
  allFeedback.filter (fun f =>
    hasThemeSub f "comfort" &&
      (f.sentiment.label == "Negative" ||
       strIncludes (lowerStr f.review_text) "heavy" ||
       strIncludes (lowerStr f.review_text) "uncomfortable"))

/-- Rule 7's negative-appearance filter. -/
def negAppearance001 (allFeedback : List FeedbackRecord) : List FeedbackRecord :=
  allFeedback.filter (fun f =>
    hasThemeSub f "appearance" && f.sentiment.label == "Negative" && confGEb f 0.6)

def rule1Positive (avgScore avgConfidence : ℚ) : List Insight001 :=
  if 0.2 < avgScore then [⟨"positive", avgConfidence, "high"⟩] else []

def rule2Negative (avgScore avgConfidence : ℚ) : List Insight001 :=
  if avgScore < -0.1 then [⟨"negative", avgConfidence, "high"⟩] else []

def rule3WellReceived (total positive avgConfidence : ℚ) : List Insight001 :=
  if 0 < total ∧ 0.6 < positive / total then
    [⟨"positive", avgConfidence, "medium"⟩]
  else []

def ruleMixed (total positive negative avgConfidence : ℚ) : List Insight001 :=
  if 2 ≤ total ∧ 0 < positive ∧ 0 < negative then
    [⟨"neutral", avgConfidence, "medium"⟩]
  else []

def rule4LowRating (allFeedback : List FeedbackRecord) : List Insight001 :=
  if 0 < allFeedback.length then
    match avgRatingOpt allFeedback with
    | some avgRating => if avgRating < 3.5 then [⟨"negative", 0.8, "high"⟩] else []
    | none => []
  else []

def rule5Durability (td : ThemeMapJS) (allFeedback : List FeedbackRecord)
    (avgConfidence : ℚ) : List Insight001 :=
  let durabilityTotal := themeSum td "durability"
  if 0 < durabilityTotal ∧ 0 < allFeedback.length then
    let negativeDurability := (negDurability001 allFeedback).length
    if 40 < ((negativeDurability : ℚ) / durabilityTotal) * 100 then
      [⟨"durability", avgConfidence, "high"⟩]
    else []
  else []

def rule6Comfort (td : ThemeMapJS) (allFeedback : List FeedbackRecord)
    (avgConfidence : ℚ) : List Insight001 :=
  let comfortTotal := themeSum td "comfort"
  if 0 < comfortTotal ∧ 0 < allFeedback.length then
    let comfortIssues := (comfortIssues001 allFeedback).length
    if 50 < ((comfortIssues : ℚ) / comfortTotal) * 100 then
      [⟨"comfort", avgConfidence, "medium"⟩]
    else []
  else []

def rule7Appearance (td : ThemeMapJS) (allFeedback : List FeedbackRecord)
    (avgConfidence : ℚ) : List Insight001 :=
  let appearanceTotal := themeSum td "appearance"
  if 0 < appearanceTotal ∧ 0 < allFeedback.length then
    let negativeAppearance := (negAppearance001 allFeedback).length
    if 60 < ((negativeAppearance : ℚ) / appearanceTotal) * 100 then
      [⟨"appearance", avgConfidence, "high"⟩]
    else []
  else []

/-- `generateInsights(sentimentData, themeData, allFeedback)` of
src/unnamed/part_001: with `sentimentData` or `themeData` missing the
whole call returns `[]`; otherwise the rules run in source order and
their insights are concatenated. -/
def generateInsights (sentimentData : Option SentimentAgg)
    (themeData : Option ThemeMapJS) (allFeedback : List FeedbackRecord) :
    List Insight001 :=
  match sentimentData, themeData with
  | some sd, some td =>
    let total := sd.total.getD 0
    let positive := sd.positive.getD 0
    let negative := sd.negative.getD 0
    let avgScore := sd.average_score.getD 0
    let avgConfidence := sd.average_confidence.getD 0
    rule1Positive avgScore avgConfidence ++
    rule2Negative avgScore avgConfidence ++
    rule3WellReceived total positive avgConfidence ++
    ruleMixed total positive negative avgConfidence ++
    rule4LowRating allFeedback ++
    rule5Durability td allFeedback avgConfidence ++
    rule6Comfort td allFeedback avgConfidence ++
    rule7Appearance td allFeedback avgConfidence
  | _, _ => []

/-! ## Dashboard.jsx — `computeAdjustedAggregates`

The per-record loop is modelled as a fold of `processRecord` over the
input list, carrying the four numeric accumulators plus the theme map
and the dedupe map (both JS maps modelled as insertion-ordered
association lists).  Number fields are real numbers; the final
`Number(x.toFixed(...))` display rounding and the phrase-mining /
chart-array post-processing carry no decision logic and are omitted.
-/

structure AggConfig where
  halfLifeDays : ℝ
  minConfidence : ℝ
  neutralFactor : ℝ
  phraseLimit : ℕ

/-- The option defaults
`{halfLifeDays: 30, minConfidence: 0.2, neutralFactor: 0.5, phraseLimit: 200}`. -/
def defaultConfig : AggConfig := ⟨30, 0.2, 0.5, 200⟩

/-- `daysSince(iso)`: missing (`!iso`) or unparseable (`Date.parse`
NaN) timestamps give 9999 days, otherwise `(now - t) / (1000*3600*24)`. -/
noncomputable def daysSince (now : ℝ) : Option ℝ → ℝ
  | none => 9999
  | some t => (now - t) / (1000 * 3600 * 24)

/-- `timeWeight(days) = exp(-log(2) * days / halfLifeDays)`. -/
noncomputable def timeWeight (cfg : AggConfig) (days : ℝ) : ℝ :=
  Real.exp (-(Real.log 2) * days / cfg.halfLifeDays)

/-- `typeof r.rating === "number" ? r.rating : 3`. -/
def ratingOf (r : FeedbackRecord) : ℚ := r.rating.getD 3

/-- `s_rating = (rating - 3) / 2`; this is also `s_final`, the only
polarity source retained by the aggregation code. -/
def sFinal (r : FeedbackRecord) : ℚ := (ratingOf r - 3) / 2

/-- `s_final` as a real number, for the weight arithmetic. -/
noncomputable def sFinalR (r : FeedbackRecord) : ℝ := ((sFinal r : ℚ) : ℝ)

/-- `c = Math.max(c_raw, minConfidence)` where `c_raw` is 0 unless the
record carries a numeric sentiment confidence. -/
noncomputable def confFloor (cfg : AggConfig) (r : FeedbackRecord) : ℝ :=
  max ((r.sentiment.confidence.getD 0 : ℚ) : ℝ) cfg.minConfidence

/-- Lookup in the dedupe map (JS `dedupeMap.get(fp) || 0`). -/
def lookupCount : List (String × ℕ) → String → ℕ
  | [], _ => 0
  | (k, v) :: rest, key => if k = key then v else lookupCount rest key

/-- JS `Map.set`: replace in place, or append a new entry. -/
def setCount : List (String × ℕ) → String → ℕ → List (String × ℕ)
  | [], key, v => [(key, v)]
  | (k, w) :: rest, key, v =>
    if k = key then (key, v) :: rest else (k, w) :: setCount rest key v

/-- Per-theme accumulator: `{ weightedCount, effCount, negTexts }`. -/
structure ThemeData where
  weightedCount : ℝ
  effCount : ℝ
  negTexts : List String

/-- `Array.isArray(r.themes) && r.themes.length ? r.themes : ["Other"]`. -/
def themesOf (r : FeedbackRecord) : List String :=
  match r.themes with
  | some ts => if ts = [] then ["Other"] else ts
  | none => ["Other"]

/-- `(typeof t === "string" && t.trim()) ? t.trim() : "Other"`. -/
def themeNameOf (t : String) : String :=
  if trimStr t = "" then "Other" else trimStr t

/-- The negative-example text the loop pushes for each of the record's
themes: present when `s_final < -0.1` and `r.review_text` is truthy. -/
def negTextOf (r : FeedbackRecord) : Option String :=
  if sFinal r < -0.1 ∧ r.review_text ≠ "" then some r.review_text else none

/-- Push a negative text example, bounded by `phraseLimit` per theme. -/
def pushNeg (ts : List String) (negText : Option String) (phraseLimit : ℕ) :
    List String :=
  match negText with
  | some txt => if ts.length < phraseLimit then ts ++ [txt] else ts
  | none => ts

/-- One theme iteration of the loop body: initialize the entry if
absent, then add `w` to `weightedCount` and `effCount` and possibly
collect the negative text. -/
noncomputable def addTheme (m : List (String × ThemeData)) (name : String) (w : ℝ)
    (negText : Option String) (phraseLimit : ℕ) : List (String × ThemeData) :=
  match m with
  | [] => [(name, ⟨w, w, pushNeg [] negText phraseLimit⟩)]
  | (k, d) :: rest =>
    if k = name then
      (k, ⟨d.weightedCount + w, d.effCount + w,
        pushNeg d.negTexts negText phraseLimit⟩) :: rest
    else (k, d) :: addTheme rest name w negText phraseLimit

/-- Engine state after some prefix of the loop. -/
structure AggState where
  rawPos : ℝ
  rawNeg : ℝ
  rawNeu : ℝ
  totalEff : ℝ
  themeMap : List (String × ThemeData)
  dedupeMap : List (String × ℕ)

noncomputable def initState : AggState := ⟨0, 0, 0, 0, [], []⟩

/-- `reviewWeight = c * tw * dedupeFactor` as computed at the current
loop step, with `dedupeFactor = 1 / Math.sqrt(prev + 1)` read off the
dedupe map before it is bumped. -/
noncomputable def stepWeight (cfg : AggConfig) (now : ℝ) (st : AggState)
    (r : FeedbackRecord) : ℝ :=
  confFloor cfg r * timeWeight cfg (daysSince now r.created_at) *
    (1 / Real.sqrt ((lookupCount st.dedupeMap (fingerprint r.review_text) : ℝ) + 1))

/-- The theme part of the loop body: fractional attribution
`w = reviewWeight * (1 / themes.length)` per theme label. -/
noncomputable def addThemes (cfg : AggConfig) (st : AggState) (r : FeedbackRecord)
    (reviewWeight : ℝ) : List (String × ThemeData) :=
  (themesOf r).foldl
    (fun m t => addTheme m (themeNameOf t)
      (reviewWeight * (1 / ((themesOf r).length : ℝ)))
      (negTextOf r) cfg.phraseLimit)
    st.themeMap

/-- One iteration of the `for` loop of `computeAdjustedAggregates`. -/
noncomputable def processRecord (cfg : AggConfig) (now : ℝ) (st : AggState)
    (r : FeedbackRecord) : AggState :=
  AggState.mk
    (st.rawPos + max 0 (sFinalR r) * stepWeight cfg now st r)
    (st.rawNeg + max 0 (-sFinalR r) * stepWeight cfg now st r)
    (st.rawNeu + (1 - |sFinalR r|) * stepWeight cfg now st r * cfg.neutralFactor)
    (st.totalEff + stepWeight cfg now st r)
    (addThemes cfg st r (stepWeight cfg now st r))
    (setCount st.dedupeMap (fingerprint r.review_text)
      (lookupCount st.dedupeMap (fingerprint r.review_text) + 1))

/-- The whole loop. -/
noncomputable def runAgg (cfg : AggConfig) (now : ℝ) (rs : List FeedbackRecord) :
    AggState :=
  rs.foldl (processRecord cfg now) initState

/-- `tiny = 1e-9`. -/
noncomputable def tiny : ℝ := 1e-9

/-- `weightedTotal = rawPos + rawNeg + rawNeu + tiny`. -/
noncomputable def weightedTotal (cfg : AggConfig) (now : ℝ)
    (rs : List FeedbackRecord) : ℝ :=
  (runAgg cfg now rs).rawPos + (runAgg cfg now rs).rawNeg +
    (runAgg cfg now rs).rawNeu + tiny

/-- The three returned sentiment percentages (before display rounding):
`positivePct`, `negativePct`, `neutralPct`. -/
noncomputable def sentimentPercentages (cfg : AggConfig) (now : ℝ)
    (rs : List FeedbackRecord) : ℝ × ℝ × ℝ :=
  ((runAgg cfg now rs).rawPos / weightedTotal cfg now rs,
   (runAgg cfg now rs).rawNeg / weightedTotal cfg now rs,
   (runAgg cfg now rs).rawNeu / weightedTotal cfg now rs)

/-- `insufficientData = totalEff < 5`. -/
def insufficientData (cfg : AggConfig) (now : ℝ) (rs : List FeedbackRecord) :
    Prop :=
  (runAgg cfg now rs).totalEff < 5

/-! ### Specification-level per-index quantities

For stating the claims, the weight of record `i` is re-expressed
against the list itself rather than the evolving map state:
`dupesBefore rs i` counts the earlier records sharing record `i`'s
fingerprint. -/

def dupesBefore (rs : List FeedbackRecord) (i : ℕ) : ℕ :=
  ((rs.take i).filter (fun r =>
    fingerprint r.review_text == fingerprint ((rs.getD i default).review_text))).length

noncomputable def reviewWeightAt (cfg : AggConfig) (now : ℝ)
    (rs : List FeedbackRecord) (i : ℕ) : ℝ :=
  confFloor cfg (rs.getD i default) *
    timeWeight cfg (daysSince now (rs.getD i default).created_at) *
    (1 / Real.sqrt ((dupesBefore rs i : ℝ) + 1))

noncomputable def posContribAt (cfg : AggConfig) (now : ℝ)
    (rs : List FeedbackRecord) (i : ℕ) : ℝ :=
  max 0 (sFinalR (rs.getD i default)) * reviewWeightAt cfg now rs i

noncomputable def negContribAt (cfg : AggConfig) (now : ℝ)
    (rs : List FeedbackRecord) (i : ℕ) : ℝ :=
  max 0 (-sFinalR (rs.getD i default)) * reviewWeightAt cfg now rs i

noncomputable def neuContribAt (cfg : AggConfig) (now : ℝ)
    (rs : List FeedbackRecord) (i : ℕ) : ℝ :=
  (1 - |sFinalR (rs.getD i default)|) * reviewWeightAt cfg now rs i *
    cfg.neutralFactor

/-- Sum of a per-index quantity over all indices of the input list. -/
noncomputable def sumIdx (rs : List FeedbackRecord) (f : ℕ → ℝ) : ℝ :=
  ((List.range rs.length).map f).sum

/-- The dedupe count the engine reads for record `i`: the value stored
under record `i`'s fingerprint after the first `i` loop iterations. -/
noncomputable def dedupePrevAt (cfg : AggConfig) (now : ℝ)
    (rs : List FeedbackRecord) (i : ℕ) : ℕ :=
  lookupCount (runAgg cfg now (rs.take i)).dedupeMap
    (fingerprint ((rs.getD i default).review_text))

/-- The dedupe factor the engine applies to record `i`. -/
noncomputable def dedupeFactorAt (cfg : AggConfig) (now : ℝ)
    (rs : List FeedbackRecord) (i : ℕ) : ℝ :=
  1 / Real.sqrt ((dedupePrevAt cfg now rs i : ℝ) + 1)

/-! ## Spec-level helper definitions used by the claims -/

/-- Number of records of `rs` whose review-text fingerprint is `key`. -/
def countFP (rs : List FeedbackRecord) (key : String) : ℕ :=
  ((rs.filter (fun r => fingerprint r.review_text == key))).length

def lookupTheme : List (String × ThemeData) → String → Option ThemeData
  | [], _ => none
  | (k, d) :: rest, name => if k = name then some d else lookupTheme rest name

/-- The weighted count currently stored for a theme (0 when absent). -/
noncomputable def weightedCountOf (m : List (String × ThemeData)) (name : String) : ℝ :=
  ((lookupTheme m name).map (fun d => d.weightedCount)).getD 0

/-- Sum of all weighted theme counts. -/
noncomputable def totalWeighted (m : List (String × ThemeData)) : ℝ :=
  (m.map (fun p => p.2.weightedCount)).sum

/-- The Durability-tagged records as selected by `analyzeThemes`. -/
def durReviewsJSX (feedback : List FeedbackRecord) : List FeedbackRecord :=
  feedback.filter (fun f => (f.themes.getD []).contains "Durability")

def negDurJSX (feedback : List FeedbackRecord) : List FeedbackRecord :=
  (durReviewsJSX feedback).filter (fun f => f.sentiment.label == "Negative")

/-- The Comfort-tagged records as selected by `analyzeThemes`. -/
def comfortReviewsJSX (feedback : List FeedbackRecord) : List FeedbackRecord :=
  feedback.filter (fun f => (f.themes.getD []).contains "Comfort")

def negComfortJSX (feedback : List FeedbackRecord) : List FeedbackRecord :=
  (comfortReviewsJSX feedback).filter (fun f => f.sentiment.label == "Negative")

/-- The durability-tagged records as selected by part_001 (substring
match on the lowercased theme name). -/
def durTagged001 (allFeedback : List FeedbackRecord) : List FeedbackRecord :=
  allFeedback.filter (fun f => hasThemeSub f "durability")

/-- The comfort-tagged records as selected by part_001. -/
def comfortTagged001 (allFeedback : List FeedbackRecord) : List FeedbackRecord :=
  allFeedback.filter (fun f => hasThemeSub f "comfort")

/-! ### Concrete inputs for counterexamples and witnesses -/

/-- A Durability-tagged record with Negative label but confidence only
0.3 (below the 0.6 floor of the specified rule). -/
def lowConfNegRecord : FeedbackRecord :=
  ⟨"p1", some 2, "strap snapped", none, ⟨"Negative", some 0.3⟩,
    some ["Durability"]⟩

/-- A high-confidence Negative Durability record. -/
def highConfNegRecord : FeedbackRecord :=
  ⟨"p1", some 1, "it broke fast", none, ⟨"Negative", some 0.9⟩,
    some ["Durability"]⟩

/-- A record with rating 1 (used to enable the low-average-rating rule). -/
def lowRatingRecord : FeedbackRecord :=
  ⟨"p2", some 1, "bad", none, ⟨"Neutral", some 0.1⟩, some ["Other"]⟩

def mkRatedRecord (pid : String) (q : ℚ) (txt : String) : FeedbackRecord :=
  ⟨pid, some q, txt, none, ⟨"Neutral", some 0.5⟩, some ["Other"]⟩

/-- Ten records, six rated 5 and four rated 1: average rating 3.4. -/
def ratings34Feedback : List FeedbackRecord :=
  [mkRatedRecord "a" 5 "t1", mkRatedRecord "a" 5 "t2", mkRatedRecord "a" 5 "t3",
   mkRatedRecord "a" 5 "t4", mkRatedRecord "a" 5 "t5", mkRatedRecord "a" 5 "t6",
   mkRatedRecord "a" 1 "t7", mkRatedRecord "a" 1 "t8", mkRatedRecord "a" 1 "t9",
   mkRatedRecord "a" 1 "t10"]

/-- Three records with the same review text (same fingerprint). -/
def tripleSameText : List FeedbackRecord :=
  [mkRatedRecord "a" 5 "Nice!", mkRatedRecord "b" 4 "Nice!",
   mkRatedRecord "c" 3 "Nice!"]

/-- A Comfort-tagged Negative record (any confidence). -/
def comfortNegRecord : FeedbackRecord :=
  ⟨"p3", some 2, "very uncomfortable band", none, ⟨"Negative", some 0.4⟩,
    some ["Comfort"]⟩

/-- A record carrying two theme labels. -/
def twoThemesRecord : FeedbackRecord :=
  ⟨"p4", some 2, "heavy and it broke", none, ⟨"Negative", some 0.7⟩,
    some ["Comfort", "Durability"]⟩

/-- A record whose rating field is not a number. -/
def noRatingRecord : FeedbackRecord :=
  ⟨"p5", none, "meh", none, ⟨"Neutral", some 0.2⟩, some ["Other"]⟩

/-- A sentiment aggregate with every field absent. -/
def emptySentimentAgg : SentimentAgg := ⟨none, none, none, none, none, none⟩

/-- A theme aggregate holding one Durability-tagged record. -/
def durTheme1 : ThemeMapJS := [("Durability", 1)]

/-- A theme aggregate holding one Comfort-tagged record. -/
def comfortTheme1 : ThemeMapJS := [("Comfort", 1)]

/-! ## Lemmas: the dedupe map tracks per-fingerprint occurrence counts -/

theorem lookupCount_setCount (m : List (String × ℕ)) (k : String) (v : ℕ)
    (key : String) :
    lookupCount (setCount m k v) key = if k = key then v else lookupCount m key := by
  induction m with
  | nil =>
    simp only [setCount, lookupCount]
  | cons hd tl ih =>
    obtain ⟨k', w⟩ := hd
    simp only [setCount]
    by_cases h1 : k' = k
    · subst h1
      simp only [if_pos rfl, lookupCount]
      by_cases h2 : k' = key
      · simp [h2]
      · simp [h2]
    · simp only [if_neg h1, lookupCount]
      by_cases h2 : k' = key
      · subst h2
        simp only [if_pos rfl]
        have : ¬ k = k' := fun hh => h1 hh.symm
        simp [this]
      · simp [h2, ih]

theorem countFP_cons (r : FeedbackRecord) (rest : List FeedbackRecord)
    (key : String) :
    countFP (r :: rest) key =
      (if fingerprint r.review_text = key then 1 else 0) + countFP rest key := by
  simp only [countFP, List.filter_cons]
  by_cases h : fingerprint r.review_text = key
  · simp [h]; omega
  · simp [h]

theorem dedupeMap_foldl_inv (cfg : AggConfig) (now : ℝ) :
    ∀ (rs : List FeedbackRecord) (st : AggState) (key : String),
      lookupCount ((rs.foldl (processRecord cfg now) st).dedupeMap) key =
        lookupCount st.dedupeMap key + countFP rs key := by
  intro rs
  induction rs with
  | nil => intro st key; simp [countFP]
  | cons r rest ih =>
    intro st key
    rw [List.foldl_cons, ih, countFP_cons]
    have hstep : lookupCount (processRecord cfg now st r).dedupeMap key =
        lookupCount st.dedupeMap key +
          (if fingerprint r.review_text = key then 1 else 0) := by
      show lookupCount (setCount st.dedupeMap (fingerprint r.review_text)
        (lookupCount st.dedupeMap (fingerprint r.review_text) + 1)) key = _
      rw [lookupCount_setCount]
      by_cases h : fingerprint r.review_text = key
      · subst h; simp
      · simp [h]
    rw [hstep]
    omega

theorem lookupCount_runAgg (cfg : AggConfig) (now : ℝ) (rs : List FeedbackRecord)
    (key : String) :
    lookupCount (runAgg cfg now rs).dedupeMap key = countFP rs key := by
  have := dedupeMap_foldl_inv cfg now rs initState key
  simpa [runAgg, initState, lookupCount] using this

theorem dupesBefore_eq_countFP (rs : List FeedbackRecord) (i : ℕ) :
    dupesBefore rs i =
      countFP (rs.take i) (fingerprint ((rs.getD i default).review_text)) := rfl

theorem dedupePrevAt_eq_dupesBefore (cfg : AggConfig) (now : ℝ)
    (rs : List FeedbackRecord) (i : ℕ) :
    dedupePrevAt cfg now rs i = dupesBefore rs i := by
  rw [dedupePrevAt, lookupCount_runAgg, dupesBefore_eq_countFP]

/-! ## Lemmas: the accumulators are sums of per-index contributions -/

theorem runAgg_concat (cfg : AggConfig) (now : ℝ) (rs : List FeedbackRecord)
    (r : FeedbackRecord) :
    runAgg cfg now (rs ++ [r]) = processRecord cfg now (runAgg cfg now rs) r := by
  simp [runAgg, List.foldl_append]

theorem getD_concat_lt {rs : List FeedbackRecord} {r : FeedbackRecord} {i : ℕ}
    (h : i < rs.length) :
    (rs ++ [r]).getD i default = rs.getD i default :=
  List.getD_append rs [r] default i h

theorem getD_concat_len (rs : List FeedbackRecord) (r : FeedbackRecord) :
    (rs ++ [r]).getD rs.length default = r := by
  rw [List.getD_append_right rs [r] default rs.length le_rfl]
  simp

theorem dupesBefore_concat_lt {rs : List FeedbackRecord} {r : FeedbackRecord}
    {i : ℕ} (h : i < rs.length) :
    dupesBefore (rs ++ [r]) i = dupesBefore rs i := by
  unfold dupesBefore
  rw [List.take_append_of_le_length (le_of_lt h), getD_concat_lt h]

theorem dupesBefore_concat_len (rs : List FeedbackRecord) (r : FeedbackRecord) :
    dupesBefore (rs ++ [r]) rs.length = countFP rs (fingerprint r.review_text) := by
  unfold dupesBefore
  rw [List.take_left rs [r], getD_concat_len]
  rfl

theorem reviewWeightAt_concat_lt (cfg : AggConfig) (now : ℝ)
    {rs : List FeedbackRecord} {r : FeedbackRecord} {i : ℕ} (h : i < rs.length) :
    reviewWeightAt cfg now (rs ++ [r]) i = reviewWeightAt cfg now rs i := by
  unfold reviewWeightAt
  rw [getD_concat_lt h, dupesBefore_concat_lt h]

theorem reviewWeightAt_concat_len (cfg : AggConfig) (now : ℝ)
    (rs : List FeedbackRecord) (r : FeedbackRecord) :
    reviewWeightAt cfg now (rs ++ [r]) rs.length =
      stepWeight cfg now (runAgg cfg now rs) r := by
  unfold reviewWeightAt stepWeight
  rw [getD_concat_len, dupesBefore_concat_len, lookupCount_runAgg]

theorem posContribAt_concat_lt (cfg : AggConfig) (now : ℝ)
    {rs : List FeedbackRecord} {r : FeedbackRecord} {i : ℕ} (h : i < rs.length) :
    posContribAt cfg now (rs ++ [r]) i = posContribAt cfg now rs i := by
  unfold posContribAt
  rw [getD_concat_lt h, reviewWeightAt_concat_lt cfg now h]

theorem negContribAt_concat_lt (cfg : AggConfig) (now : ℝ)
    {rs : List FeedbackRecord} {r : FeedbackRecord} {i : ℕ} (h : i < rs.length) :
    negContribAt cfg now (rs ++ [r]) i = negContribAt cfg now rs i := by
  unfold negContribAt
  rw [getD_concat_lt h, reviewWeightAt_concat_lt cfg now h]

theorem neuContribAt_concat_lt (cfg : AggConfig) (now : ℝ)
    {rs : List FeedbackRecord} {r : FeedbackRecord} {i : ℕ} (h : i < rs.length) :
    neuContribAt cfg now (rs ++ [r]) i = neuContribAt cfg now rs i := by
  unfold neuContribAt
  rw [getD_concat_lt h, reviewWeightAt_concat_lt cfg now h]

theorem sumIdx_concat (rs : List FeedbackRecord) (r : FeedbackRecord) (f : ℕ → ℝ) :
    sumIdx (rs ++ [r]) f = sumIdx rs f + f rs.length := by
  simp only [sumIdx, List.length_append, List.length_singleton]
  rw [List.range_succ]
  simp

theorem runAgg_fields (cfg : AggConfig) (now : ℝ) (rs : List FeedbackRecord) :
    (runAgg cfg now rs).rawPos = sumIdx rs (posContribAt cfg now rs) ∧
    (runAgg cfg now rs).rawNeg = sumIdx rs (negContribAt cfg now rs) ∧
    (runAgg cfg now rs).rawNeu = sumIdx rs (neuContribAt cfg now rs) ∧
    (runAgg cfg now rs).totalEff = sumIdx rs (reviewWeightAt cfg now rs) := by
  induction rs using List.reverseRecOn with
  | nil => simp [runAgg, initState, sumIdx]
  | append_singleton rs r ih =>
    obtain ⟨ihP, ihN, ihU, ihT⟩ := ih
    rw [runAgg_concat]
    have hsum : ∀ f g : ℕ → ℝ, (∀ i, i < rs.length → f i = g i) →
        sumIdx (rs ++ [r]) f = sumIdx rs g + f rs.length := by
      intro f g hfg
      rw [sumIdx_concat]
      congr 1
      unfold sumIdx
      exact congrArg List.sum (List.map_congr_left
        (fun i hi => hfg i (List.mem_range.mp hi)))
    refine ⟨?_, ?_, ?_, ?_⟩
    · show (runAgg cfg now rs).rawPos + max 0 (sFinalR r) *
        stepWeight cfg now (runAgg cfg now rs) r = _
      rw [hsum _ _ (fun i hi => posContribAt_concat_lt cfg now hi), ihP]
      congr 1
      unfold posContribAt
      rw [getD_concat_len, reviewWeightAt_concat_len]
    · show (runAgg cfg now rs).rawNeg + max 0 (-sFinalR r) *
        stepWeight cfg now (runAgg cfg now rs) r = _
      rw [hsum _ _ (fun i hi => negContribAt_concat_lt cfg now hi), ihN]
      congr 1
      unfold negContribAt
      rw [getD_concat_len, reviewWeightAt_concat_len]
    · show (runAgg cfg now rs).rawNeu + (1 - |sFinalR r|) *
        stepWeight cfg now (runAgg cfg now rs) r * cfg.neutralFactor = _
      rw [hsum _ _ (fun i hi => neuContribAt_concat_lt cfg now hi), ihU]
      congr 1
      unfold neuContribAt
      rw [getD_concat_len, reviewWeightAt_concat_len]
    · show (runAgg cfg now rs).totalEff +
        stepWeight cfg now (runAgg cfg now rs) r = _
      rw [hsum _ _ (fun i hi => reviewWeightAt_concat_lt cfg now hi), ihT]
      congr 1
      rw [reviewWeightAt_concat_len]

/-! ## Lemmas: fractional theme attribution -/

theorem totalWeighted_addTheme (m : List (String × ThemeData)) (name : String)
    (w : ℝ) (negText : Option String) (phraseLimit : ℕ) :
    totalWeighted (addTheme m name w negText phraseLimit) = totalWeighted m + w := by
  induction m with
  | nil => simp [addTheme, totalWeighted]
  | cons hd tl ih =>
    obtain ⟨k, d⟩ := hd
    by_cases h : k = name
    · simp only [addTheme, if_pos h, totalWeighted, List.map_cons, List.sum_cons]
      ring
    · simp only [addTheme, if_neg h, totalWeighted, List.map_cons, List.sum_cons]
      have := ih
      simp only [totalWeighted] at this
      rw [this]
      ring

theorem weightedCountOf_addTheme_same (m : List (String × ThemeData))
    (name : String) (w : ℝ) (negText : Option String) (phraseLimit : ℕ) :
    weightedCountOf (addTheme m name w negText phraseLimit) name =
      weightedCountOf m name + w := by
  induction m with
  | nil => simp [addTheme, weightedCountOf, lookupTheme]
  | cons hd tl ih =>
    obtain ⟨k, d⟩ := hd
    by_cases h : k = name
    · simp [addTheme, if_pos h, weightedCountOf, lookupTheme, h]
    · simp only [addTheme, if_neg h, weightedCountOf, lookupTheme]
      simpa [weightedCountOf] using ih

theorem weightedCountOf_addTheme_ne (m : List (String × ThemeData))
    (name other : String) (w : ℝ) (negText : Option String) (phraseLimit : ℕ)
    (h : other ≠ name) :
    weightedCountOf (addTheme m name w negText phraseLimit) other =
      weightedCountOf m other := by
  induction m with
  | nil =>
    simp only [addTheme, weightedCountOf, lookupTheme]
    rw [if_neg (fun hh => h hh.symm)]
  | cons hd tl ih =>
    obtain ⟨k, d⟩ := hd
    by_cases hk : k = name
    · subst hk
      simp only [addTheme, if_pos rfl, weightedCountOf, lookupTheme]
      rw [if_neg (fun hh => h hh.symm), if_neg (fun hh => h hh.symm)]
    · simp only [addTheme, if_neg hk, weightedCountOf, lookupTheme]
      by_cases hko : k = other
      · simp [hko]
      · simp only [if_neg hko]
        simpa [weightedCountOf] using ih

/-- Folding the per-theme update over a list of theme labels adds
`labels.length * w` to the total weighted count. -/
theorem totalWeighted_foldTheme (w : ℝ) (negText : Option String)
    (phraseLimit : ℕ) :
    ∀ (labels : List String) (m : List (String × ThemeData)),
      totalWeighted (labels.foldl
        (fun acc t => addTheme acc (themeNameOf t) w negText phraseLimit) m) =
      totalWeighted m + (labels.length : ℝ) * w := by
  intro labels
  induction labels with
  | nil => intro m; simp
  | cons t rest ih =>
    intro m
    rw [List.foldl_cons, ih, totalWeighted_addTheme, List.length_cons]
    push_cast
    ring

/-- A name not occurring among the (normalized) labels is untouched by
the fold. -/
theorem weightedCountOf_foldTheme_notMem (w : ℝ) (negText : Option String)
    (phraseLimit : ℕ) (other : String) :
    ∀ (labels : List String) (m : List (String × ThemeData)),
      other ∉ labels.map themeNameOf →
      weightedCountOf (labels.foldl
        (fun acc t => addTheme acc (themeNameOf t) w negText phraseLimit) m) other =
      weightedCountOf m other := by
  intro labels
  induction labels with
  | nil => intro m _; rfl
  | cons t rest ih =>
    intro m hmem
    simp only [List.map_cons, List.mem_cons] at hmem
    push_neg at hmem
    rw [List.foldl_cons,
      ih (addTheme m (themeNameOf t) w negText phraseLimit) hmem.2,
      weightedCountOf_addTheme_ne m (themeNameOf t) other w negText phraseLimit
        hmem.1]

theorem weightedCountOf_foldTheme_mem (w : ℝ) (negText : Option String)
    (phraseLimit : ℕ) :
    ∀ (labels : List String) (m : List (String × ThemeData)) (t : String),
      (labels.map themeNameOf).Nodup → t ∈ labels →
      weightedCountOf (labels.foldl
        (fun acc u => addTheme acc (themeNameOf u) w negText phraseLimit) m)
        (themeNameOf t) =
      weightedCountOf m (themeNameOf t) + w := by
  intro labels
  induction labels with
  | nil => intro m t _ ht; cases ht
  | cons u rest ih =>
    intro m t hnd ht
    simp only [List.map_cons, List.nodup_cons] at hnd
    rw [List.foldl_cons]
    rcases List.mem_cons.mp ht with h | h
    · subst h
      rw [weightedCountOf_foldTheme_notMem w negText phraseLimit _ rest _ hnd.1,
        weightedCountOf_addTheme_same]
    · have hne : themeNameOf t ≠ themeNameOf u := by
        intro hh
        exact hnd.1 (hh ▸ List.mem_map_of_mem themeNameOf h)
      rw [ih _ t hnd.2 h,
        weightedCountOf_addTheme_ne m (themeNameOf u) (themeNameOf t) w negText
          phraseLimit hne]

/-! ## Claim theorems -/

/-- C2: within one aggregation batch, the k-th record (0-indexed)
sharing a review-text fingerprint receives dedupe factor 1/sqrt(k+1):
the count the engine reads from its dedupe map for record `i` equals
the number of earlier records with the same fingerprint, and the
applied factor is `1 / sqrt(count + 1)`; in particular three identical
texts get factors 1, 1/√2, 1/√3 in input order. -/
theorem dedupe_factor_formula :
    (∀ (cfg : AggConfig) (now : ℝ) (rs : List FeedbackRecord) (i : ℕ),
      dedupePrevAt cfg now rs i = dupesBefore rs i ∧
      dedupeFactorAt cfg now rs i =
        1 / Real.sqrt ((dupesBefore rs i : ℝ) + 1)) ∧
    dedupeFactorAt defaultConfig 0 tripleSameText 0 = 1 ∧
    dedupeFactorAt defaultConfig 0 tripleSameText 1 = 1 / Real.sqrt 2 ∧
    dedupeFactorAt defaultConfig 0 tripleSameText 2 = 1 / Real.sqrt 3 := by
  have hgen : ∀ (cfg : AggConfig) (now : ℝ) (rs : List FeedbackRecord) (i : ℕ),
      dedupePrevAt cfg now rs i = dupesBefore rs i ∧
      dedupeFactorAt cfg now rs i =
        1 / Real.sqrt ((dupesBefore rs i : ℝ) + 1) := by
    intro cfg now rs i
    refine ⟨dedupePrevAt_eq_dupesBefore cfg now rs i, ?_⟩
    rw [dedupeFactorAt, dedupePrevAt_eq_dupesBefore]
  refine ⟨hgen, ?_, ?_, ?_⟩
  · rw [(hgen defaultConfig 0 tripleSameText 0).2,
      show dupesBefore tripleSameText 0 = 0 from by decide]
    norm_num [Real.sqrt_one]
  · rw [(hgen defaultConfig 0 tripleSameText 1).2,
      show dupesBefore tripleSameText 1 = 1 from by decide]
    norm_num
  · rw [(hgen defaultConfig 0 tripleSameText 2).2,
      show dupesBefore tripleSameText 2 = 2 from by decide]
    norm_num

/-- C3: every record's review weight is
`max(confidence, minConfidence) * exp(-ln 2 * age_days / halfLifeDays)
* dedupe_factor`; a missing/unparseable `created_at` gives age 9999
days; at age exactly `halfLifeDays` the time weight is 0.5 (within
1e-6); and the engine's effective total is the sum of these weights. -/
theorem review_weight_formula (cfg : AggConfig) (now : ℝ)
    (rs : List FeedbackRecord) (i : ℕ) (r : FeedbackRecord) (c : ℚ)
    (hr : rs.getD i default = r) (hc : r.sentiment.confidence = some c)
    (hh : cfg.halfLifeDays ≠ 0) :
    reviewWeightAt cfg now rs i =
      max (c : ℝ) cfg.minConfidence *
        Real.exp (-(Real.log 2) * daysSince now r.created_at / cfg.halfLifeDays) *
        (1 / Real.sqrt ((dupesBefore rs i : ℝ) + 1)) ∧
    daysSince now none = 9999 ∧
    |timeWeight cfg cfg.halfLifeDays - 0.5| < 1e-6 ∧
    (runAgg cfg now rs).totalEff = sumIdx rs (reviewWeightAt cfg now rs) := by
  refine ⟨?_, rfl, ?_, (runAgg_fields cfg now rs).2.2.2⟩
  · rw [reviewWeightAt, hr]
    congr 1
    rw [confFloor, hc]
    rfl
  · have h2 : timeWeight cfg cfg.halfLifeDays = 1 / 2 := by
      rw [timeWeight, mul_div_assoc, div_self hh, mul_one, Real.exp_neg,
        Real.exp_log (by norm_num : (0:ℝ) < 2)]
      norm_num
    rw [h2]
    norm_num

/-- Witness for C3 at the default configuration and a concrete record. -/
theorem review_weight_formula_witness :
    reviewWeightAt defaultConfig 0 [highConfNegRecord] 0 =
      max ((0.9 : ℚ) : ℝ) defaultConfig.minConfidence *
        Real.exp (-(Real.log 2) * daysSince 0 highConfNegRecord.created_at /
          defaultConfig.halfLifeDays) *
        (1 / Real.sqrt ((dupesBefore [highConfNegRecord] 0 : ℝ) + 1)) ∧
    daysSince 0 none = 9999 ∧
    |timeWeight defaultConfig defaultConfig.halfLifeDays - 0.5| < 1e-6 ∧
    (runAgg defaultConfig 0 [highConfNegRecord]).totalEff =
      sumIdx [highConfNegRecord] (reviewWeightAt defaultConfig 0 [highConfNegRecord]) :=
  review_weight_formula defaultConfig 0 [highConfNegRecord] 0 highConfNegRecord 0.9
    rfl rfl (by norm_num [defaultConfig])

/-- C4: polarity is `(rating - 3) / 2`; the engine's positive, negative
and neutral accumulators are the sums of
`max(0, polarity) * review_weight`, `max(0, -polarity) * review_weight`
and `(1 - |polarity|) * review_weight * neutralFactor`; and each
reported percentage is its accumulator divided by the sum of the three
accumulators plus the tiny epsilon. -/
theorem sentiment_percentages_formula (cfg : AggConfig) (now : ℝ)
    (rs : List FeedbackRecord) :
    (∀ r : FeedbackRecord, sFinal r = (ratingOf r - 3) / 2) ∧
    (runAgg cfg now rs).rawPos = sumIdx rs (posContribAt cfg now rs) ∧
    (runAgg cfg now rs).rawNeg = sumIdx rs (negContribAt cfg now rs) ∧
    (runAgg cfg now rs).rawNeu = sumIdx rs (neuContribAt cfg now rs) ∧
    sentimentPercentages cfg now rs =
      (sumIdx rs (posContribAt cfg now rs) /
        (sumIdx rs (posContribAt cfg now rs) + sumIdx rs (negContribAt cfg now rs) +
         sumIdx rs (neuContribAt cfg now rs) + tiny),
       sumIdx rs (negContribAt cfg now rs) /
        (sumIdx rs (posContribAt cfg now rs) + sumIdx rs (negContribAt cfg now rs) +
         sumIdx rs (neuContribAt cfg now rs) + tiny),
       sumIdx rs (neuContribAt cfg now rs) /
        (sumIdx rs (posContribAt cfg now rs) + sumIdx rs (negContribAt cfg now rs) +
         sumIdx rs (neuContribAt cfg now rs) + tiny)) := by
  obtain ⟨hP, hN, hU, _⟩ := runAgg_fields cfg now rs
  refine ⟨fun r => rfl, hP, hN, hU, ?_⟩
  rw [sentimentPercentages, weightedTotal, hP, hN, hU]

/-- C5: `insufficientData` is true iff the effective total weight (the
sum of all per-record review weights) is strictly below 5; in
particular an effective total of exactly 5 is not flagged. -/
theorem insufficient_data_iff (cfg : AggConfig) (now : ℝ)
    (rs : List FeedbackRecord) :
    (insufficientData cfg now rs ↔ sumIdx rs (reviewWeightAt cfg now rs) < 5) ∧
    (insufficientData cfg now rs → (runAgg cfg now rs).totalEff ≠ 5) := by
  have h := (runAgg_fields cfg now rs).2.2.2
  constructor
  · rw [insufficientData, h]
  · intro hins heq
    rw [insufficientData, heq] at hins
    exact lt_irrefl _ hins

/-- Witness for C5: the empty batch has effective total 0 < 5, so it is
flagged insufficient and its total is not 5. -/
theorem insufficient_data_iff_witness :
    (runAgg defaultConfig 0 []).totalEff ≠ 5 :=
  (insufficient_data_iff defaultConfig 0 []).2
    (by simp [insufficientData, runAgg, initState])

/-- C6: a record with a non-empty theme list adds exactly
`review_weight / theme_count` to each of its themes' weighted counts,
and the per-theme increments sum to the record's full review weight. -/
theorem theme_fractional_attribution (cfg : AggConfig) (now : ℝ) (st : AggState)
    (r : FeedbackRecord) (ts : List String) (hts : r.themes = some ts)
    (hne : ts ≠ []) (hnd : (ts.map themeNameOf).Nodup) :
    (∀ t ∈ ts,
      weightedCountOf (processRecord cfg now st r).themeMap (themeNameOf t) =
        weightedCountOf st.themeMap (themeNameOf t) +
          stepWeight cfg now st r / (ts.length : ℝ)) ∧
    totalWeighted (processRecord cfg now st r).themeMap =
      totalWeighted st.themeMap + stepWeight cfg now st r := by
  have hthemes : themesOf r = ts := by simp [themesOf, hts, hne]
  have hmap : (processRecord cfg now st r).themeMap =
      ts.foldl (fun m t => addTheme m (themeNameOf t)
        (stepWeight cfg now st r * (1 / (ts.length : ℝ)))
        (negTextOf r) cfg.phraseLimit) st.themeMap := by
    show addThemes cfg st r (stepWeight cfg now st r) = _
    rw [addThemes, hthemes]
  have hlen : ((ts.length : ℝ)) ≠ 0 := by
    have h0 : ts.length ≠ 0 := fun h => hne (List.length_eq_zero.mp h)
    exact_mod_cast h0
  constructor
  · intro t ht
    rw [hmap, weightedCountOf_foldTheme_mem _ _ _ ts st.themeMap t hnd ht]
    congr 1
    field_simp
  · rw [hmap, totalWeighted_foldTheme]
    congr 1
    field_simp

/-- Witness for C6 at a concrete two-theme record. -/
theorem theme_fractional_attribution_witness :
    (∀ t ∈ ["Comfort", "Durability"],
      weightedCountOf (processRecord defaultConfig 0 initState twoThemesRecord).themeMap
          (themeNameOf t) =
        weightedCountOf initState.themeMap (themeNameOf t) +
          stepWeight defaultConfig 0 initState twoThemesRecord /
            (([( "Comfort" : String), "Durability"].length : ℝ))) ∧
    totalWeighted (processRecord defaultConfig 0 initState twoThemesRecord).themeMap =
      totalWeighted initState.themeMap +
        stepWeight defaultConfig 0 initState twoThemesRecord :=
  theme_fractional_attribution defaultConfig 0 initState twoThemesRecord
    ["Comfort", "Durability"] rfl (by decide) (by decide)

/-- C10: a record whose rating is not a number is treated as rating 3
(polarity 0): it adds nothing to the positive and negative
accumulators, adds `review_weight * neutralFactor` to the neutral one,
and its full review weight still enters the effective total. -/
theorem non_numeric_rating_neutral (cfg : AggConfig) (now : ℝ) (st : AggState)
    (r : FeedbackRecord) (hr : r.rating = none) :
    ratingOf r = 3 ∧
    sFinal r = 0 ∧
    (processRecord cfg now st r).rawPos = st.rawPos ∧
    (processRecord cfg now st r).rawNeg = st.rawNeg ∧
    (processRecord cfg now st r).rawNeu =
      st.rawNeu + stepWeight cfg now st r * cfg.neutralFactor ∧
    (processRecord cfg now st r).totalEff = st.totalEff + stepWeight cfg now st r := by
  have h3 : ratingOf r = 3 := by simp [ratingOf, hr]
  have h0 : sFinal r = 0 := by simp [sFinal, h3]
  have h0R : sFinalR r = 0 := by simp [sFinalR, h0]
  refine ⟨h3, h0, ?_, ?_, ?_, rfl⟩
  · show st.rawPos + max 0 (sFinalR r) * stepWeight cfg now st r = st.rawPos
    rw [h0R]
    simp
  · show st.rawNeg + max 0 (-sFinalR r) * stepWeight cfg now st r = st.rawNeg
    rw [h0R]
    simp
  · show st.rawNeu + (1 - |sFinalR r|) * stepWeight cfg now st r * cfg.neutralFactor =
      st.rawNeu + stepWeight cfg now st r * cfg.neutralFactor
    rw [h0R]
    simp

/-- Witness for C10 at a concrete record without a numeric rating. -/
theorem non_numeric_rating_neutral_witness :
    ratingOf noRatingRecord = 3 ∧
    sFinal noRatingRecord = 0 ∧
    (processRecord defaultConfig 0 initState noRatingRecord).rawPos =
      initState.rawPos ∧
    (processRecord defaultConfig 0 initState noRatingRecord).rawNeg =
      initState.rawNeg ∧
    (processRecord defaultConfig 0 initState noRatingRecord).rawNeu =
      initState.rawNeu + stepWeight defaultConfig 0 initState noRatingRecord *
        defaultConfig.neutralFactor ∧
    (processRecord defaultConfig 0 initState noRatingRecord).totalEff =
      initState.totalEff + stepWeight defaultConfig 0 initState noRatingRecord :=
  non_numeric_rating_neutral defaultConfig 0 initState noRatingRecord rfl

/-! ## Lemmas: membership characterizations for the insight rules -/

theorem getThemeStats_durability (feedback : List FeedbackRecord)
    (hne : (durReviewsJSX feedback).length ≠ 0) :
    getThemeStats feedback "Durability" =
      some ((durReviewsJSX feedback).length, (negDurJSX feedback).length,
        ((negDurJSX feedback).length : ℚ) /
          ((durReviewsJSX feedback).length : ℚ) * 100) := by
  show (if (durReviewsJSX feedback).length = 0 then none else _) = _
  rw [if_neg hne]
  rfl

theorem getThemeStats_comfort (feedback : List FeedbackRecord)
    (hne : (comfortReviewsJSX feedback).length ≠ 0) :
    getThemeStats feedback "Comfort" =
      some ((comfortReviewsJSX feedback).length, (negComfortJSX feedback).length,
        ((negComfortJSX feedback).length : ℚ) /
          ((comfortReviewsJSX feedback).length : ℚ) * 100) := by
  show (if (comfortReviewsJSX feedback).length = 0 then none else _) = _
  rw [if_neg hne]
  rfl

theorem length_pos_of_filter_length_pos {p : FeedbackRecord → Bool}
    {l : List FeedbackRecord} (h : 0 < (l.filter p).length) : 0 < l.length :=
  lt_of_lt_of_le h (List.length_filter_le p l)

theorem mem_analyzeThemes_durability (td : ThemeMapJS)
    (feedback : List FeedbackRecord) (hne : 0 < (durReviewsJSX feedback).length) :
    durabilityInsightJSX ∈ analyzeThemes (some td) feedback ↔
      40 < ((negDurJSX feedback).length : ℚ) /
        ((durReviewsJSX feedback).length : ℚ) * 100 := by
  have hfb : ¬ feedback.length = 0 :=
    Nat.pos_iff_ne_zero.mp (length_pos_of_filter_length_pos hne)
  have hC : durabilityInsightJSX ∉
      (match getThemeStats feedback "Comfort" with
        | some s => if 30 < s.2.2 then [comfortInsightJSX] else []
        | none => []) := by
    rcases getThemeStats feedback "Comfort" with _ | s
    · simp
    · dsimp only
      split
      · simp [durabilityInsightJSX, comfortInsightJSX]
      · simp
  have hA : durabilityInsightJSX ∉
      (match getThemeStats feedback "Appearance" with
        | some s => if 60 < s.2.2 then [appearanceInsightJSX] else []
        | none => []) := by
    rcases getThemeStats feedback "Appearance" with _ | s
    · simp
    · dsimp only
      split
      · simp [durabilityInsightJSX, appearanceInsightJSX]
      · simp
  rw [analyzeThemes]
  simp only [if_neg hfb, List.mem_append]
  rw [getThemeStats_durability feedback (Nat.pos_iff_ne_zero.mp hne)]
  constructor
  · rintro ((h | h) | h)
    · revert h
      dsimp only
      split
      · intro _; assumption
      · intro h; cases h
    · exact absurd h hC
    · exact absurd h hA
  · intro h
    left; left
    dsimp only
    rw [if_pos h]
    exact List.mem_singleton_self _

theorem mem_analyzeThemes_comfort (td : ThemeMapJS)
    (feedback : List FeedbackRecord)
    (hne : 0 < (comfortReviewsJSX feedback).length) :
    comfortInsightJSX ∈ analyzeThemes (some td) feedback ↔
      30 < ((negComfortJSX feedback).length : ℚ) /
        ((comfortReviewsJSX feedback).length : ℚ) * 100 := by
  have hfb : ¬ feedback.length = 0 :=
    Nat.pos_iff_ne_zero.mp (length_pos_of_filter_length_pos hne)
  have hD : comfortInsightJSX ∉
      (match getThemeStats feedback "Durability" with
        | some s => if 40 < s.2.2 then [durabilityInsightJSX] else []
        | none => []) := by
    rcases getThemeStats feedback "Durability" with _ | s
    · simp
    · dsimp only
      split
      · simp [durabilityInsightJSX, comfortInsightJSX]
      · simp
  have hA : comfortInsightJSX ∉
      (match getThemeStats feedback "Appearance" with
        | some s => if 60 < s.2.2 then [appearanceInsightJSX] else []
        | none => []) := by
    rcases getThemeStats feedback "Appearance" with _ | s
    · simp
    · dsimp only
      split
      · simp [comfortInsightJSX, appearanceInsightJSX]
      · simp
  rw [analyzeThemes]
  simp only [if_neg hfb, List.mem_append]
  rw [getThemeStats_comfort feedback (Nat.pos_iff_ne_zero.mp hne)]
  constructor
  · rintro ((h | h) | h)
    · exact absurd h hD
    · revert h
      dsimp only
      split
      · intro _; assumption
      · intro h; cases h
    · exact absurd h hA
  · intro h
    left; right
    dsimp only
    rw [if_pos h]
    exact List.mem_singleton_self _

theorem mem_generateInsights_durability (sd : SentimentAgg) (td : ThemeMapJS)
    (fb : List FeedbackRecord) :
    ((⟨"durability", sd.average_confidence.getD 0, "high"⟩ : Insight001) ∈
      generateInsights (some sd) (some td) fb) ↔
      ((0 < themeSum td "durability" ∧ 0 < fb.length) ∧
        40 < (((negDurability001 fb).length : ℚ) / themeSum td "durability") * 100) := by
  have h1 : (⟨"durability", sd.average_confidence.getD 0, "high"⟩ : Insight001) ∉
      rule1Positive (sd.average_score.getD 0) (sd.average_confidence.getD 0) := by
    rw [rule1Positive]; split <;> simp [Insight001.mk.injEq]
  have h2 : (⟨"durability", sd.average_confidence.getD 0, "high"⟩ : Insight001) ∉
      rule2Negative (sd.average_score.getD 0) (sd.average_confidence.getD 0) := by
    rw [rule2Negative]; split <;> simp [Insight001.mk.injEq]
  have h3 : (⟨"durability", sd.average_confidence.getD 0, "high"⟩ : Insight001) ∉
      rule3WellReceived (sd.total.getD 0) (sd.positive.getD 0)
        (sd.average_confidence.getD 0) := by
    rw [rule3WellReceived]; split <;> simp [Insight001.mk.injEq]
  have hM : (⟨"durability", sd.average_confidence.getD 0, "high"⟩ : Insight001) ∉
      ruleMixed (sd.total.getD 0) (sd.positive.getD 0) (sd.negative.getD 0)
        (sd.average_confidence.getD 0) := by
    rw [ruleMixed]; split <;> simp [Insight001.mk.injEq]
  have h4 : (⟨"durability", sd.average_confidence.getD 0, "high"⟩ : Insight001) ∉
      rule4LowRating fb := by
    rw [rule4LowRating]
    split
    · rcases avgRatingOpt fb with _ | a
      · simp
      · dsimp only
        split <;> simp [Insight001.mk.injEq]
    · simp
  have h6 : (⟨"durability", sd.average_confidence.getD 0, "high"⟩ : Insight001) ∉
      rule6Comfort td fb (sd.average_confidence.getD 0) := by
    rw [rule6Comfort]
    split
    · dsimp only
      split <;> simp [Insight001.mk.injEq]
    · simp
  have h7 : (⟨"durability", sd.average_confidence.getD 0, "high"⟩ : Insight001) ∉
      rule7Appearance td fb (sd.average_confidence.getD 0) := by
    rw [rule7Appearance]
    split
    · dsimp only
      split <;> simp [Insight001.mk.injEq]
    · simp
  have h5 : (⟨"durability", sd.average_confidence.getD 0, "high"⟩ : Insight001) ∈
      rule5Durability td fb (sd.average_confidence.getD 0) ↔
      ((0 < themeSum td "durability" ∧ 0 < fb.length) ∧
        40 < (((negDurability001 fb).length : ℚ) / themeSum td "durability") * 100) := by
    rw [rule5Durability]
    dsimp only
    by_cases hg : 0 < themeSum td "durability" ∧ 0 < fb.length
    · rw [if_pos hg]
      by_cases hp : 40 <
          (((negDurability001 fb).length : ℚ) / themeSum td "durability") * 100
      · simp [hg, hp]
      · simp [hg, hp]
    · rw [if_neg hg]
      simp [hg]
  rw [generateInsights]
  simp only [List.mem_append]
  constructor
  · rintro (((((((h | h) | h) | h) | h) | h) | h) | h)
    exacts [absurd h h1, absurd h h2, absurd h h3, absurd h hM, absurd h h4,
      h5.mp h, absurd h h6, absurd h h7]
  · intro hcond
    exact Or.inl (Or.inl (Or.inr (h5.mpr hcond)))

theorem mem_generateInsights_comfort (sd : SentimentAgg) (td : ThemeMapJS)
    (fb : List FeedbackRecord) :
    ((⟨"comfort", sd.average_confidence.getD 0, "medium"⟩ : Insight001) ∈
      generateInsights (some sd) (some td) fb) ↔
      ((0 < themeSum td "comfort" ∧ 0 < fb.length) ∧
        50 < (((comfortIssues001 fb).length : ℚ) / themeSum td "comfort") * 100) := by
  have h1 : (⟨"comfort", sd.average_confidence.getD 0, "medium"⟩ : Insight001) ∉
      rule1Positive (sd.average_score.getD 0) (sd.average_confidence.getD 0) := by
    rw [rule1Positive]; split <;> simp [Insight001.mk.injEq]
  have h2 : (⟨"comfort", sd.average_confidence.getD 0, "medium"⟩ : Insight001) ∉
      rule2Negative (sd.average_score.getD 0) (sd.average_confidence.getD 0) := by
    rw [rule2Negative]; split <;> simp [Insight001.mk.injEq]
  have h3 : (⟨"comfort", sd.average_confidence.getD 0, "medium"⟩ : Insight001) ∉
      rule3WellReceived (sd.total.getD 0) (sd.positive.getD 0)
        (sd.average_confidence.getD 0) := by
    rw [rule3WellReceived]; split <;> simp [Insight001.mk.injEq]
  have hM : (⟨"comfort", sd.average_confidence.getD 0, "medium"⟩ : Insight001) ∉
      ruleMixed (sd.total.getD 0) (sd.positive.getD 0) (sd.negative.getD 0)
        (sd.average_confidence.getD 0) := by
    rw [ruleMixed]; split <;> simp [Insight001.mk.injEq]
  have h4 : (⟨"comfort", sd.average_confidence.getD 0, "medium"⟩ : Insight001) ∉
      rule4LowRating fb := by
    rw [rule4LowRating]
    split
    · rcases avgRatingOpt fb with _ | a
      · simp
      · dsimp only
        split <;> simp [Insight001.mk.injEq]
    · simp
  have h5 : (⟨"comfort", sd.average_confidence.getD 0, "medium"⟩ : Insight001) ∉
      rule5Durability td fb (sd.average_confidence.getD 0) := by
    rw [rule5Durability]
    split
    · dsimp only
      split <;> simp [Insight001.mk.injEq]
    · simp
  have h7 : (⟨"comfort", sd.average_confidence.getD 0, "medium"⟩ : Insight001) ∉
      rule7Appearance td fb (sd.average_confidence.getD 0) := by
    rw [rule7Appearance]
    split
    · dsimp only
      split <;> simp [Insight001.mk.injEq]
    · simp
  have h6 : (⟨"comfort", sd.average_confidence.getD 0, "medium"⟩ : Insight001) ∈
      rule6Comfort td fb (sd.average_confidence.getD 0) ↔
      ((0 < themeSum td "comfort" ∧ 0 < fb.length) ∧
        50 < (((comfortIssues001 fb).length : ℚ) / themeSum td "comfort") * 100) := by
    rw [rule6Comfort]
    dsimp only
    by_cases hg : 0 < themeSum td "comfort" ∧ 0 < fb.length
    · rw [if_pos hg]
      by_cases hp : 50 <
          (((comfortIssues001 fb).length : ℚ) / themeSum td "comfort") * 100
      · simp [hg, hp]
      · simp [hg, hp]
    · rw [if_neg hg]
      simp [hg]
  rw [generateInsights]
  simp only [List.mem_append]
  constructor
  · rintro (((((((h | h) | h) | h) | h) | h) | h) | h)
    exacts [absurd h h1, absurd h h2, absurd h h3, absurd h hM, absurd h h4,
      absurd h h5, h6.mp h, absurd h h7]
  · intro hcond
    exact Or.inl (Or.inr (h6.mpr hcond))

/-- C7: for a non-empty collection (with numeric ratings, so the JS
average is a number), `analyzeRatings` emits exactly the critical
insight when the average rating is below 2.5, exactly the high one when
it is in [2.5, 3.5), and nothing otherwise. -/
theorem rating_health_bands (feedback : List FeedbackRecord) (a : ℚ)
    (hne : 0 < feedback.length) (havg : avgRatingOpt feedback = some a) :
    (a < 2.5 → analyzeRatings feedback = [ratingCriticalInsight]) ∧
    (2.5 ≤ a → a < 3.5 → analyzeRatings feedback = [ratingHighInsight]) ∧
    (3.5 ≤ a → analyzeRatings feedback = []) := by
  have hlen : ¬ feedback.length = 0 := Nat.pos_iff_ne_zero.mp hne
  refine ⟨?_, ?_, ?_⟩
  · intro h
    simp [analyzeRatings, hlen, havg, h]
  · intro h1 h2
    simp [analyzeRatings, hlen, havg, not_lt.mpr h1, h2]
  · intro h
    simp [analyzeRatings, hlen, havg,
      not_lt.mpr (le_trans (by norm_num : (2.5 : ℚ) ≤ 3.5) h), not_lt.mpr h]

/-- Witness for C7 at the literal spec scenario: six 5-star and four
1-star records, average rating 3.4, which falls in the high band. -/
theorem rating_health_bands_witness :
    (2.5 : ℚ) ≤ 3.4 ∧ (3.4 : ℚ) < 3.5 ∧
    analyzeRatings ratings34Feedback = [ratingHighInsight] := by
  have havg : avgRatingOpt ratings34Feedback = some 3.4 := by
    have h1 : avgRatingOpt ratings34Feedback =
        some ((5 + (5 + (5 + (5 + (5 + (5 + (1 + (1 + (1 + (1 + (0:ℚ))))))))))) /
          ((10 : ℕ) : ℚ)) := rfl
    rw [h1]
    norm_num
  exact ⟨by norm_num, by norm_num,
    (rating_health_bands ratings34Feedback 3.4 (by decide) havg).2.1
      (by norm_num) (by norm_num)⟩

/-- C1 counterexample: a single Durability-tagged record with Negative
label but confidence 0.3 makes `analyzeThemes` emit the high-priority
durability insight, although the share of Durability records that are
Negative with confidence at least 0.6 is 0 of 1 (not above 40%): the
per-record engine applies no confidence filter. -/
theorem analyzeThemes_durability_ignores_confidence :
    durabilityInsightJSX ∈ analyzeThemes (some ([] : ThemeMapJS)) [lowConfNegRecord] ∧
    ((durReviewsJSX [lowConfNegRecord]).filter
      (fun f => f.sentiment.label == "Negative" && confGEb f 0.6)).length = 0 ∧
    0 < (durReviewsJSX [lowConfNegRecord]).length := by
  have hd : durReviewsJSX [lowConfNegRecord] = [lowConfNegRecord] := rfl
  have hc : confGEb lowConfNegRecord 0.6 = false := by
    have h : ¬ ((0.6 : ℚ) ≤ 0.3) := by norm_num
    simp [confGEb, lowConfNegRecord, h]
  refine ⟨?_, ?_, by decide⟩
  · rw [mem_analyzeThemes_durability _ _ (by decide),
      show (negDurJSX [lowConfNegRecord]).length = 1 from by decide,
      show (durReviewsJSX [lowConfNegRecord]).length = 1 from by decide]
    norm_num
  · rw [hd]
    simp [List.filter_cons, hc]

/-- C1 (amended): the per-record engine (`analyzeThemes`) emits the
high-priority durability insight iff more than 40% of
Durability-tagged records carry a Negative label, with no confidence
condition; the aggregate-driven engine (`generateInsights`), whenever
its durability theme total equals the number of durability-tagged
records, emits its high-priority durability insight iff the share of
durability-tagged records that are Negative with confidence at least
0.6 exceeds 40%. -/
theorem durability_insight_characterization :
    (∀ (td : ThemeMapJS) (feedback : List FeedbackRecord),
      0 < (durReviewsJSX feedback).length →
      (durabilityInsightJSX ∈ analyzeThemes (some td) feedback ↔
        40 < ((negDurJSX feedback).length : ℚ) /
          ((durReviewsJSX feedback).length : ℚ) * 100)) ∧
    (∀ (sd : SentimentAgg) (td : ThemeMapJS) (fb : List FeedbackRecord),
      themeSum td "durability" = ((durTagged001 fb).length : ℚ) →
      0 < (durTagged001 fb).length →
      ((⟨"durability", sd.average_confidence.getD 0, "high"⟩ : Insight001) ∈
        generateInsights (some sd) (some td) fb ↔
        40 < (((negDurability001 fb).length : ℚ) /
          ((durTagged001 fb).length : ℚ)) * 100)) := by
  constructor
  · exact fun td feedback hne => mem_analyzeThemes_durability td feedback hne
  · intro sd td fb heq hpos
    rw [mem_generateInsights_durability, heq]
    have hq : (0 : ℚ) < ((durTagged001 fb).length : ℚ) := by exact_mod_cast hpos
    have hfb : 0 < fb.length := length_pos_of_filter_length_pos hpos
    simp [hq, hfb]

/-- Witness for the amended C1 at concrete inputs for both engines. -/
theorem durability_insight_characterization_witness :
    (durabilityInsightJSX ∈ analyzeThemes (some ([] : ThemeMapJS)) [highConfNegRecord] ↔
      40 < ((negDurJSX [highConfNegRecord]).length : ℚ) /
        ((durReviewsJSX [highConfNegRecord]).length : ℚ) * 100) ∧
    ((⟨"durability", (emptySentimentAgg.average_confidence.getD 0 : ℚ),
        "high"⟩ : Insight001) ∈
      generateInsights (some emptySentimentAgg) (some durTheme1) [highConfNegRecord] ↔
      40 < (((negDurability001 [highConfNegRecord]).length : ℚ) /
        ((durTagged001 [highConfNegRecord]).length : ℚ)) * 100) := by
  have hsum : themeSum durTheme1 "durability" =
      ((durTagged001 [highConfNegRecord]).length : ℚ) := by
    have h1 : themeSum durTheme1 "durability" = 0 + 1 := rfl
    rw [h1, show (durTagged001 [highConfNegRecord]).length = 1 from by decide]
    norm_num
  exact ⟨durability_insight_characterization.1 [] [highConfNegRecord] (by decide),
    durability_insight_characterization.2 emptySentimentAgg durTheme1
      [highConfNegRecord] hsum (by decide)⟩

/-- C8: the two Comfort rule variants: the per-record variant
(`analyzeThemes`) emits its medium-priority comfort insight iff more
than 30% of Comfort-tagged records have Negative sentiment; the
aggregate-driven variant (`generateInsights`), whenever its comfort
theme total equals the number of comfort-tagged records, emits its
medium-priority comfort insight iff its comfort-issue share exceeds
50%.  Both variants exist in the system. -/
theorem comfort_rule_variants :
    (∀ (td : ThemeMapJS) (feedback : List FeedbackRecord),
      0 < (comfortReviewsJSX feedback).length →
      (comfortInsightJSX ∈ analyzeThemes (some td) feedback ↔
        30 < ((negComfortJSX feedback).length : ℚ) /
          ((comfortReviewsJSX feedback).length : ℚ) * 100)) ∧
    (∀ (sd : SentimentAgg) (td : ThemeMapJS) (fb : List FeedbackRecord),
      themeSum td "comfort" = ((comfortTagged001 fb).length : ℚ) →
      0 < (comfortTagged001 fb).length →
      ((⟨"comfort", sd.average_confidence.getD 0, "medium"⟩ : Insight001) ∈
        generateInsights (some sd) (some td) fb ↔
        50 < (((comfortIssues001 fb).length : ℚ) /
          ((comfortTagged001 fb).length : ℚ)) * 100)) := by
  constructor
  · exact fun td feedback hne => mem_analyzeThemes_comfort td feedback hne
  · intro sd td fb heq hpos
    rw [mem_generateInsights_comfort, heq]
    have hq : (0 : ℚ) < ((comfortTagged001 fb).length : ℚ) := by exact_mod_cast hpos
    have hfb : 0 < fb.length := length_pos_of_filter_length_pos hpos
    simp [hq, hfb]

/-- Witness for C8 at concrete inputs for both engines. -/
theorem comfort_rule_variants_witness :
    (comfortInsightJSX ∈ analyzeThemes (some ([] : ThemeMapJS)) [comfortNegRecord] ↔
      30 < ((negComfortJSX [comfortNegRecord]).length : ℚ) /
        ((comfortReviewsJSX [comfortNegRecord]).length : ℚ) * 100) ∧
    ((⟨"comfort", (emptySentimentAgg.average_confidence.getD 0 : ℚ),
        "medium"⟩ : Insight001) ∈
      generateInsights (some emptySentimentAgg) (some comfortTheme1)
        [comfortNegRecord] ↔
      50 < (((comfortIssues001 [comfortNegRecord]).length : ℚ) /
        ((comfortTagged001 [comfortNegRecord]).length : ℚ)) * 100) := by
  have hsum : themeSum comfortTheme1 "comfort" =
      ((comfortTagged001 [comfortNegRecord]).length : ℚ) := by
    have h1 : themeSum comfortTheme1 "comfort" = 0 + 1 := rfl
    rw [h1, show (comfortTagged001 [comfortNegRecord]).length = 1 from by decide]
    norm_num
  exact ⟨comfort_rule_variants.1 [] [comfortNegRecord] (by decide),
    comfort_rule_variants.2 emptySentimentAgg comfortTheme1 [comfortNegRecord]
      hsum (by decide)⟩

/-- C9 counterexample: with the sentiment aggregate missing but the
theme aggregate and the records present, `generateInsights` returns the
empty list even though the low-average-rating rule (needing only the
records) and the durability rule (needing only themes and records)
would each emit an insight on this input. -/
theorem generateInsights_missing_input_counterexample :
    generateInsights none (some durTheme1) [highConfNegRecord] = [] ∧
    rule4LowRating [highConfNegRecord] = [⟨"negative", 0.8, "high"⟩] ∧
    rule5Durability durTheme1 [highConfNegRecord] 0 = [⟨"durability", 0, "high"⟩] := by
  refine ⟨rfl, ?_, ?_⟩
  · have havg : avgRatingOpt [highConfNegRecord] =
        some ((1 + 0) / ((1 : ℕ) : ℚ)) := rfl
    rw [rule4LowRating,
      if_pos (by decide : 0 < (([highConfNegRecord] : List FeedbackRecord)).length),
      havg]
    dsimp only
    rw [if_pos (by norm_num : ((1 : ℚ) + 0) / ((1 : ℕ) : ℚ) < 3.5)]
  · have h1 : themeSum durTheme1 "durability" = 0 + 1 := rfl
    have hc : confGEb highConfNegRecord 0.6 = true := by
      have h : (0.6 : ℚ) ≤ 0.9 := by norm_num
      simp [confGEb, highConfNegRecord, h]
    have hneg : (negDurability001 [highConfNegRecord]).length = 1 := by
      simp [negDurability001, List.filter_cons, hc,
        show hasThemeSub highConfNegRecord "durability" = true from by decide,
        show (highConfNegRecord.sentiment.label == "Negative") = true from by decide]
    rw [rule5Durability]
    dsimp only
    rw [if_pos (⟨by rw [h1]; norm_num,
      by decide⟩ : 0 < themeSum durTheme1 "durability" ∧
        0 < (([highConfNegRecord] : List FeedbackRecord)).length)]
    rw [hneg, h1]
    rw [if_pos (by norm_num : (40 : ℚ) < (((1 : ℕ) : ℚ) / (0 + 1)) * 100)]

/-- C9 (amended): when `sentimentData` or `themeData` is missing,
`generateInsights` returns the empty list without error — skipping
every rule, including those whose inputs are present; the
`handleGenerateInsights` core errors (rather than returning the
remaining rules' insights) exactly when any of its three inputs is
still missing. -/
theorem missing_input_behavior :
    (∀ (td : Option ThemeMapJS) (fb : List FeedbackRecord),
      generateInsights none td fb = []) ∧
    (∀ (sd : Option SentimentAgg) (fb : List FeedbackRecord),
      generateInsights sd none fb = []) ∧
    (∀ (sd : Option SentimentAgg) (td : Option ThemeMapJS)
      (fd : Option (List FeedbackRecord)),
      handleGenerateInsights sd td fd =
        Except.error "Insufficient data to generate insights." ↔
        (sd = none ∨ td = none ∨ fd = none)) := by
  refine ⟨?_, ?_, ?_⟩
  · intro td fb
    cases td <;> rfl
  · intro sd fb
    cases sd <;> rfl
  · intro sd td fd
    cases sd <;> cases td <;> cases fd <;>
      simp [handleGenerateInsights]
